import Mathlib

/-!
Shallow embedding of the Explorer API (`src/index.js`), a JSON-file-backed
content server built on Express.  Query-string and body values are modelled
as `Option String` (`none` = the key is absent, `some s` = the key is present
with string value `s`); JavaScript truthiness on such values is `falsy`.
The backing file is modelled as `Option Doc` (`none` = `db.json` absent).
Handlers are pure functions from (request parameters, file state) to
(response, new file state); `nanoid` and `new Date().toISOString()` are
supplied as explicit parameters.
-/

namespace Explorer

/-- JavaScript falsiness of an optional string value: `undefined` and the
empty string are falsy (`!v` is true), every other string is truthy. -/
def falsy : Option String → Bool
  | none => true
  | some s => s == ""

/-- Numeric value of a decimal digit character. -/
def digitVal (c : Char) : Nat := c.toNat - 48

/-- Fold a list of decimal digits into a natural number. -/
def digitsToNat (ds : List Char) : Nat :=
  ds.foldl (fun acc c => acc * 10 + digitVal c) 0

/-- Model of JavaScript `parseInt(s, 10)`: skip leading whitespace, read an
optional sign, then the maximal run of decimal digits; `none` models `NaN`
(no digits found). Trailing garbage is ignored, as in JS. -/
def jsParseInt (s : String) : Option Int :=
  let cs := s.data.dropWhile (fun c => c == ' ' || c == '\t' || c == '\n' || c == '\r')
  let (neg, cs') :=
    match cs with
    | '-' :: rest => (true, rest)
    | '+' :: rest => (false, rest)
    | _ => (false, cs)
  let digits := cs'.takeWhile Char.isDigit
  if digits.isEmpty then none
  else
    let n : Int := digitsToNat digits
    some (if neg then -n else n)

/-- Model of `parseInt(v, 10) || d` on an optional string `v`: an absent
value parses to `NaN`, and both `NaN` and `0` are falsy, so they yield the
default `d`. -/
def jsParseIntOr (v : Option String) (d : Int) : Int :=
  match v with
  | none => d
  | some s =>
    match jsParseInt s with
    | none => d
    | some n => if n = 0 then d else n

/-- Model of JavaScript `String.prototype.includes` on the character lists
of the two strings: does `needle` occur as a contiguous substring of the
list? (`[].includes("")` is true, as in JS.) -/
def hasSubList (needle : List Char) : List Char → Bool
  | [] => needle.isEmpty
  | c :: t => needle.isPrefixOf (c :: t) || hasSubList needle t

/-- `hay.includes(needle)` for strings. -/
def jsIncludes (hay needle : String) : Bool :=
  hasSubList needle.data hay.data

/-- ASCII lower-casing of one character, `A`–`Z` mapped down by 32. -/
def lowerChar (c : Char) : Char :=
  if 65 ≤ c.toNat && c.toNat ≤ 90 then Char.ofNat (c.toNat + 32) else c

/-- Model of JavaScript `toLowerCase()` (on the ASCII range exercised by
the routes and seed data). -/
def lowerStr (s : String) : String :=
  String.mk (s.data.map lowerChar)

/-- Model of `x.f && x.f.toLowerCase().includes(ql)` used as a filter
predicate: a missing field is non-matching, an empty-string field is falsy
hence non-matching, otherwise a case-insensitive substring test (the query
`ql` is already lower-cased by the caller). -/
def fieldMatches (f : Option String) (ql : String) : Bool :=
  match f with
  | none => false
  | some t => (!(t == "")) && jsIncludes (lowerStr t) ql

/-- The paginated response envelope
`{page, limit, total, pages, data}` returned by `paginate`. -/
structure Paginated (α : Type) where
  page : Int
  limit : Int
  total : Nat
  pages : Nat
  data : List α
  deriving Repr, DecidableEq

/-- `paginate(array, page, limit)` from `src/index.js`:
`p = Math.max(1, parseInt(page,10) || 1)`,
`l = Math.max(1, Math.min(100, parseInt(limit,10) || 10))`,
`start = (p-1)*l`, `data = array.slice(start, start+l)`,
`pages = Math.ceil(array.length / l)` (written `(len + l - 1) / l`,
which equals the ceiling since `l ≥ 1`). -/
def paginate (array : List α) (page limit : Option String) : Paginated α :=
  let p : Int := max 1 (jsParseIntOr page 1)
  let l : Int := max 1 (min 100 (jsParseIntOr limit 10))
  let start : Nat := ((p - 1) * l).toNat
  { page := p
    limit := l
    total := array.length
    pages := (array.length + l.toNat - 1) / l.toNat
    data := (array.drop start).take l.toNat }

/-! ## Data model -/

/-- A highlight entry of the document (seed data carries every field). -/
structure Highlight where
  id : String
  title : String
  summary : String
  image : String
  url : String
  publishedAt : String
  sourceId : String
  deriving Repr, DecidableEq

/-- A news article.  Apart from `id`, fields are optional: handler filters
treat a missing field as non-matching, and `/admin/news` may store `null`
for `sourceId`. -/
structure Article where
  id : String
  title : Option String
  summary : Option String
  url : Option String
  image : Option String
  publishedAt : Option String
  sourceId : Option String
  deriving Repr, DecidableEq

/-- An image entry. -/
structure Image where
  id : String
  title : Option String
  url : Option String
  thumb : Option String
  sourceId : Option String
  deriving Repr, DecidableEq

/-- A source entry. -/
structure Source where
  id : String
  name : String
  url : String
  deriving Repr, DecidableEq

/-- A trending-topic entry. -/
structure Trending where
  id : String
  topic : String
  score : Nat
  deriving Repr, DecidableEq

/-- A feedback entry appended by `POST /api/v1/feedback`. -/
structure FeedbackEntry where
  id : String
  message : String
  context : Option String
  createdAt : String
  deriving Repr, DecidableEq

/-- The `likes` object: JavaScript object keys modelled as an insertion-
ordered association list from counter-table name (`"articles"`, `"images"`,
or any `type + "s"` synthesized by `POST /like`) to a table from item id to
count. -/
def Likes := List (String × List (String × Nat))
  deriving Repr, DecidableEq

/-- The root document stored in `db.json`.  The `feedback` collection is
absent from the seed and defaulted to `[]` by the feedback handler
(`db.feedback = db.feedback || []`), which is observationally the same as
starting from the empty list. -/
structure Doc where
  highlights : List Highlight
  news : List Article
  images : List Image
  sources : List Source
  trending : List Trending
  likes : Likes
  feedback : List FeedbackEntry
  createdAt : String
  deriving Repr, DecidableEq

/-- Lookup in an insertion-ordered association list (JS property read). -/
def lookupA (l : List (String × β)) (k : String) : Option β :=
  match l with
  | [] => none
  | (k', v) :: rest => if k' == k then some v else lookupA rest k

/-- JS property write `o[k] = v`: overwrite in place if the key exists,
otherwise append (JS objects keep insertion order for string keys). -/
def insertA (l : List (String × β)) (k : String) (v : β) : List (String × β) :=
  match l with
  | [] => [(k, v)]
  | (k', v') :: rest => if k' == k then (k, v) :: rest else (k', v') :: insertA rest k v

/-- `db.likes[table][id] || 0`: the recorded count, 0 when the table or the
id is absent. -/
def getCount (likes : Likes) (table id : String) : Nat :=
  match lookupA likes table with
  | none => 0
  | some t => (lookupA t id).getD 0

/-! ## Document store -/

/-- `getInitialData()` from `src/index.js`, parameterized by
`now = new Date().toISOString()`.  The source literal closes the `likes`
object with `]` instead of `}` (a syntax defect the specification directs
to fix silently); it is transcribed here with the bracket corrected and no
other change. -/
def getInitialData (now : String) : Doc :=
  { highlights := [
      { id := "h1", title := "Destaque: Economia global em foco",
        summary := "Resumo do destaque.",
        image := "https://picsum.photos/seed/hl1/800/450",
        url := "https://exemplo.com/destaque-1",
        publishedAt := now, sourceId := "s1" }]
    news := [
      { id := "n1", title := some "Mercados subiram hoje",
        summary := some "Resumo da notícia de mercado.",
        url := some "https://noticias.ex/n1",
        image := some "https://picsum.photos/seed/n1/400/300",
        publishedAt := some now, sourceId := some "s1" },
      { id := "n2", title := some "Tecnologia: nova versão lançada",
        summary := some "Resumo da notícia tech.",
        url := some "https://noticias.ex/n2",
        image := some "https://picsum.photos/seed/n2/400/300",
        publishedAt := some now, sourceId := some "s2" }]
    images := [
      { id := "img1", title := some "Paisagem",
        url := some "https://picsum.photos/seed/img1/1200/800",
        thumb := some "https://picsum.photos/seed/img1/400/300",
        sourceId := some "s3" }]
    sources := [
      { id := "s1", name := "Exemplo News", url := "https://noticias.ex" },
      { id := "s2", name := "TechToday", url := "https://techtoday.ex" },
      { id := "s3", name := "Pics", url := "https://picsum.photos" }]
    trending := [
      { id := "t1", topic := "Economia", score := 92 },
      { id := "t2", topic := "IA", score := 88 }]
    likes := [("articles", [("n1", 12), ("n2", 5)]), ("images", [("img1", 3)])]
    feedback := []
    createdAt := now }

/-- `readDB()`: when the backing file is absent, write the seed document and
re-read it; otherwise parse the stored document.  The result pairs the
loaded document with the file state after the call. -/
def readDB (now : String) (st : Option Doc) : Doc × Option Doc :=
  match st with
  | none => (getInitialData now, some (getInitialData now))
  | some d => (d, some d)

/-- `writeDB(data)`: overwrite the backing file with the given document. -/
def writeDB (d : Doc) : Option Doc := some d

/-! ## Request handlers

Each handler takes its request parameters (query-string or body values as
`Option String`), the clock value `now`, where needed a fresh `nanoid`
string, and the file state; it returns its response together with the file
state after the request (a `readDB` on an absent file seeds it, so even GET
handlers may change the state from `none` to `some seed`). -/

/-- The filter chain of `GET /api/v1/news`: keep articles with
`x.sourceId === source` when `source` is truthy, then articles whose
lower-cased `title` or `summary` contains the lower-cased `q` when `q` is
truthy. -/
def newsFiltered (news : List Article) (q source : Option String) :
    List Article :=
  let items := news
  let items :=
    if falsy source then items
    else items.filter (fun x => x.sourceId == source)
  if falsy q then items
  else
    let ql := lowerStr (q.getD "")
    items.filter (fun x => fieldMatches x.title ql || fieldMatches x.summary ql)

/-- `GET /api/v1/news`: copy `db.news`, filter by exact `sourceId` match
when `source` is truthy, then by case-insensitive substring of
`title`/`summary` when `q` is truthy, then paginate. -/
def newsHandler (q page limit source : Option String) (now : String)
    (st : Option Doc) : Paginated Article × Option Doc :=
  let db := (readDB now st).1
  (paginate (newsFiltered db.news q source) page limit, (readDB now st).2)

/-- Response of `GET /api/v1/news/:id`: 404, a 500-style crash (the source
reads `db.likes.articles[...]` without guarding against a document whose
`likes` object lacks the `articles` key — a TypeError surfaces as an
unhandled failure), or the article merged with its like count. -/
inductive ByIdResult where
  | notFound
  | crash
  | ok (item : Article) (likes : Nat)
  deriving Repr, DecidableEq

/-- `GET /api/v1/news/:id`: find the article by id; 404 when absent,
otherwise merge in `db.likes.articles[item.id] || 0`. -/
def newsByIdHandler (idp : String) (now : String) (st : Option Doc) :
    ByIdResult × Option Doc :=
  let db := (readDB now st).1
  match db.news.find? (fun n => n.id == idp) with
  | none => (ByIdResult.notFound, (readDB now st).2)
  | some item =>
    match lookupA db.likes "articles" with
    | none => (ByIdResult.crash, (readDB now st).2)
    | some tbl => (ByIdResult.ok item ((lookupA tbl item.id).getD 0), (readDB now st).2)

/-- `GET /api/v1/images`: copy `db.images`, filter by case-insensitive
substring of `title` when `q` is truthy, paginate. -/
def imagesHandler (q page limit : Option String) (now : String)
    (st : Option Doc) : Paginated Image × Option Doc :=
  let db := (readDB now st).1
  let items := db.images
  let items :=
    if falsy q then items
    else
      let ql := lowerStr (q.getD "")
      items.filter (fun x => fieldMatches x.title ql)
  (paginate items page limit, (readDB now st).2)

/-- A combined search hit, `{ type: 'news', ...article }` or
`{ type: 'image', ...image }`. -/
inductive SearchHit where
  | newsHit (a : Article)
  | imageHit (i : Image)
  deriving Repr, DecidableEq

/-- The `type` tag carried by a search hit. -/
def SearchHit.kind : SearchHit → String
  | .newsHit _ => "news"
  | .imageHit _ => "image"

/-- Response of `GET /api/v1/search`: 400 when `q` is falsy, otherwise the
paginated combined hits. -/
inductive SearchResult where
  | badRequest (error : String)
  | ok (pag : Paginated SearchHit)
  deriving Repr, DecidableEq

/-- The news articles matching `ql` (case-insensitive on title/summary),
each tagged `news`, in stored order. -/
def searchNews (db : Doc) (ql : String) : List SearchHit :=
  (db.news.filter
      (fun n => fieldMatches n.title ql || fieldMatches n.summary ql)).map
    SearchHit.newsHit

/-- The images matching `ql` (case-insensitive on title), each tagged
`image`, in stored order. -/
def searchImages (db : Doc) (ql : String) : List SearchHit :=
  (db.images.filter (fun i => fieldMatches i.title ql)).map SearchHit.imageHit

/-- `GET /api/v1/search`: 400 unless `q` is truthy; otherwise concatenate
matching news (tagged) then matching images (tagged) and paginate. -/
def searchHandler (q page limit : Option String) (now : String)
    (st : Option Doc) : SearchResult × Option Doc :=
  if falsy q then (SearchResult.badRequest "q parameter required", st)
  else
    let db := (readDB now st).1
    let ql := lowerStr (q.getD "")
    let combined := searchNews db ql ++ searchImages db ql
    (SearchResult.ok (paginate combined page limit), (readDB now st).2)

/-- Response of `POST /api/v1/like`: 400 or
`{ id, type, likes: <new count> }`. -/
inductive LikeResult where
  | badRequest (error : String)
  | ok (id ty : String) (likes : Nat)
  deriving Repr, DecidableEq

/-- `POST /api/v1/like`: 400 when `type` or `id` is falsy (before any file
access); otherwise `db.likes[type + 's']` is created empty when absent,
the counter at `id` is set to its previous value (`|| 0`) plus one, the
document is persisted, and the new count is returned. -/
def likeHandler (ty idv : Option String) (now : String) (st : Option Doc) :
    LikeResult × Option Doc :=
  if falsy ty || falsy idv then
    (LikeResult.badRequest "type and id required", st)
  else
    let t := ty.getD ""
    let i := idv.getD ""
    let db := (readDB now st).1
    let key := t ++ "s"
    let tbl := (lookupA db.likes key).getD []
    let cnt := (lookupA tbl i).getD 0 + 1
    let likes' := insertA db.likes key (insertA tbl i cnt)
    let db' := { db with likes := likes' }
    (LikeResult.ok i t cnt, writeDB db')

/-- Response of `POST /api/v1/feedback`: 400 or `{ status: 'ok' }`. -/
inductive FeedbackResult where
  | badRequest (error : String)
  | ok
  deriving Repr, DecidableEq

/-- `POST /api/v1/feedback`: 400 when `message` is falsy (before any file
access); otherwise append `{ id: nanoid(8), message, context: context ||
null, createdAt: now }` to `db.feedback` and persist. -/
def feedbackHandler (message context : Option String) (freshId now : String)
    (st : Option Doc) : FeedbackResult × Option Doc :=
  if falsy message then (FeedbackResult.badRequest "message required", st)
  else
    let db := (readDB now st).1
    let entry : FeedbackEntry :=
      { id := freshId, message := message.getD "",
        context := if falsy context then none else context, createdAt := now }
    let db' := { db with feedback := db.feedback ++ [entry] }
    (FeedbackResult.ok, writeDB db')

/-- Response of `POST /api/v1/admin/news`: 400 or `{ created: item }`. -/
inductive AdminNewsResult where
  | badRequest (error : String)
  | created (item : Article)
  deriving Repr, DecidableEq

/-- The article literal built by `POST /api/v1/admin/news`:
`{ id: 'n' + nanoid(6), title, summary: summary || '', url,
image: image || '', publishedAt: now, sourceId: sourceId || null }`. -/
def newArticle (title summary url image sourceId : Option String)
    (freshId now : String) : Article :=
  { id := "n" ++ freshId, title := title,
    summary := some (if falsy summary then "" else summary.getD ""),
    url := url,
    image := some (if falsy image then "" else image.getD ""),
    publishedAt := some now,
    sourceId := if falsy sourceId then none else sourceId }

/-- `POST /api/v1/admin/news`: 400 when `title` or `url` is falsy (before
any file access); otherwise build the `newArticle` literal, prepend it to
`db.news` (`unshift`), persist, and return it. -/
def adminNewsHandler (title summary url image sourceId : Option String)
    (freshId now : String) (st : Option Doc) :
    AdminNewsResult × Option Doc :=
  if falsy title || falsy url then
    (AdminNewsResult.badRequest "title and url required", st)
  else
    let db := (readDB now st).1
    let item := newArticle title summary url image sourceId freshId now
    let db' := { db with news := item :: db.news }
    (AdminNewsResult.created item, writeDB db')

/-! ## Concrete fixtures

Small documents used to evaluate the handlers at specific inputs. -/

/-- An article carrying none of the optional fields. -/
def bareArticle : Article :=
  { id := "a0", title := none, summary := none, url := none, image := none,
    publishedAt := none, sourceId := none }

/-- A store whose only news entry is `bareArticle`. -/
def bareDoc : Doc :=
  { highlights := [], news := [bareArticle], images := [], sources := [],
    trending := [], likes := [("articles", []), ("images", [])],
    feedback := [], createdAt := "T0" }

/-! ## Helper lemmas -/

/-- Reading back a key just written returns the written value. -/
theorem lookupA_insertA_self (l : List (String × β)) (k : String) (v : β) :
    lookupA (insertA l k v) k = some v := by
  induction l with
  | nil => simp [insertA, lookupA]
  | cons hd tl ih =>
    obtain ⟨k', v'⟩ := hd
    by_cases h : k' = k
    · simp [insertA, lookupA, h]
    · simp [insertA, lookupA, h, ih]

/-- The `(db.likes[key] || {})[id] || 0` read performed by the like handler
computes `getCount`. -/
theorem getCount_getD (likes : Likes) (key i : String) :
    (lookupA ((lookupA likes key).getD []) i).getD 0 = getCount likes key i := by
  cases h : lookupA likes key <;> simp [getCount, h, lookupA]

/-- After the like handler's double write, the counter at `(key, i)` holds
exactly the written value. -/
theorem getCount_insertA_self (likes : Likes) (key i : String) (cnt : Nat) :
    getCount
      (insertA likes key
        (insertA ((lookupA likes key).getD []) i cnt)) key i = cnt := by
  simp [getCount, lookupA_insertA_self]

/-- The success branch of `POST /api/v1/like`, written out: response carries
the incremented count and the persisted document carries the double
`insertA` write. -/
theorem likeHandler_ok (ty idv : Option String) (now : String)
    (st : Option Doc) (hty : falsy ty = false) (hid : falsy idv = false) :
    likeHandler ty idv now st =
      (LikeResult.ok (idv.getD "") (ty.getD "")
        (getCount (readDB now st).1.likes (ty.getD "" ++ "s") (idv.getD "") + 1),
       some { (readDB now st).1 with
         likes := insertA (readDB now st).1.likes (ty.getD "" ++ "s")
           (insertA ((lookupA (readDB now st).1.likes (ty.getD "" ++ "s")).getD [])
             (idv.getD "")
             (getCount (readDB now st).1.likes (ty.getD "" ++ "s") (idv.getD "") + 1)) }) := by
  simp [likeHandler, hty, hid, writeDB, getCount_getD]

/-! ## Claims -/

/-- C2.  For every list of items and every request whose `page` parses to
`p ≥ 1` and whose `limit` parses to `l ∈ [1, 100]`, `paginate` echoes `page`
and `limit` back, reports `total` as the input length and `pages` as
`⌈total / limit⌉` (computed as `(total + l - 1) / l`), and returns as `data`
the slice of the input from index `(p-1)·l` up to `p·l` in input order, of
length `min(l, total - (p-1)·l)` clamped to `≥ 0` (truncated subtraction). -/
theorem paginate_contract {α : Type} (items : List α)
    (page limit : Option String) (p l : Nat)
    (hp : jsParseIntOr page 1 = (p : Int))
    (hl : jsParseIntOr limit 10 = (l : Int))
    (hp1 : 1 ≤ p) (hl1 : 1 ≤ l) (hl2 : l ≤ 100) :
    (paginate items page limit).page = (p : Int) ∧
    (paginate items page limit).limit = (l : Int) ∧
    (paginate items page limit).total = items.length ∧
    (paginate items page limit).pages = (items.length + l - 1) / l ∧
    (paginate items page limit).data = (items.drop ((p - 1) * l)).take l ∧
    (paginate items page limit).data.length = min l (items.length - (p - 1) * l) := by
  have hpmax : max 1 (jsParseIntOr page 1) = (p : Int) := by
    rw [hp]; omega
  have hlmax : max 1 (min 100 (jsParseIntOr limit 10)) = (l : Int) := by
    rw [hl]; omega
  have hstart : (((p : Int) - 1) * (l : Int)).toNat = (p - 1) * l := by
    have h1 : ((p : Int) - 1) = ((p - 1 : Nat) : Int) := by omega
    rw [h1, ← Nat.cast_mul, Int.toNat_natCast]
  have hln : ((l : Int)).toNat = l := Int.toNat_natCast l
  refine ⟨?_, ?_, ?_, ?_, ?_, ?_⟩ <;>
    simp [paginate, hpmax, hlmax, hstart, hln, List.length_take, List.length_drop]

/-- C2 witness: the contract evaluated at a five-element list with
`page = "2"`, `limit = "2"`. -/
theorem paginate_contract_witness :
    (paginate [10, 20, 30, 40, 50] (some "2") (some "2")).page = (2 : Int) ∧
    (paginate [10, 20, 30, 40, 50] (some "2") (some "2")).limit = (2 : Int) ∧
    (paginate [10, 20, 30, 40, 50] (some "2") (some "2")).total = [10, 20, 30, 40, 50].length ∧
    (paginate [10, 20, 30, 40, 50] (some "2") (some "2")).pages = ([10, 20, 30, 40, 50].length + 2 - 1) / 2 ∧
    (paginate [10, 20, 30, 40, 50] (some "2") (some "2")).data = ([10, 20, 30, 40, 50].drop ((2 - 1) * 2)).take 2 ∧
    (paginate [10, 20, 30, 40, 50] (some "2") (some "2")).data.length = min 2 ([10, 20, 30, 40, 50].length - (2 - 1) * 2) :=
  paginate_contract [10, 20, 30, 40, 50] (some "2") (some "2") 2 2
    (by decide) (by decide) (by decide) (by decide) (by decide)

/-- C3 counterexample.  An out-of-range `limit` does not fall back to the
default 10: `limit = "500"` is clamped to 100 and `limit = "-5"` is clamped
to 1. -/
theorem paginate_limit_clamp_counterexample :
    (paginate ([] : List Nat) (some "1") (some "500")).limit = 100 ∧
    (paginate ([] : List Nat) (some "1") (some "-5")).limit = 1 ∧
    (100 : Int) ≠ 10 ∧ (1 : Int) ≠ 10 := by
  decide

/-- C3 (amended).  `paginate` never fails: for every input its `page` is
`≥ 1` and its `limit` lies in `[1, 100]`; a missing, non-numeric, or zero
`page` falls back to the default 1 and a missing, non-numeric, or zero
`limit` falls back to the default 10, while other out-of-range values are
clamped into range rather than defaulted. -/
theorem paginate_invalid_input_fallback {α : Type} (items : List α)
    (page limit : Option String) :
    1 ≤ (paginate items page limit).page ∧
    1 ≤ (paginate items page limit).limit ∧
    (paginate items page limit).limit ≤ 100 ∧
    (page = none → (paginate items page limit).page = 1) ∧
    (∀ s, page = some s → jsParseInt s = none ∨ jsParseInt s = some 0 →
      (paginate items page limit).page = 1) ∧
    (limit = none → (paginate items page limit).limit = 10) ∧
    (∀ s, limit = some s → jsParseInt s = none ∨ jsParseInt s = some 0 →
      (paginate items page limit).limit = 10) ∧
    (∀ s n, page = some s → jsParseInt s = some n → n ≤ 0 →
      (paginate items page limit).page = 1) ∧
    (∀ s n, limit = some s → jsParseInt s = some n → n < 0 →
      (paginate items page limit).limit = 1) ∧
    (∀ s n, limit = some s → jsParseInt s = some n → 100 < n →
      (paginate items page limit).limit = 100) := by
  refine ⟨?_, ?_, ?_, ?_, ?_, ?_, ?_, ?_, ?_, ?_⟩
  · simp only [paginate]; omega
  · simp only [paginate]; omega
  · simp only [paginate]; omega
  · intro h; subst h; simp [paginate, jsParseIntOr]
  · intro s hs hparse; subst hs
    rcases hparse with h | h <;> simp [paginate, jsParseIntOr, h]
  · intro h; subst h; simp [paginate, jsParseIntOr]
  · intro s hs hparse; subst hs
    rcases hparse with h | h <;> simp [paginate, jsParseIntOr, h]
  · intro s n hs hparse hn; subst hs
    simp only [paginate, jsParseIntOr, hparse]
    split <;> omega
  · intro s n hs hparse hn; subst hs
    simp only [paginate, jsParseIntOr, hparse]
    split <;> omega
  · intro s n hs hparse hn; subst hs
    simp only [paginate, jsParseIntOr, hparse]
    split <;> omega

/-- C3 witness: a non-numeric `page` and a zero `limit` both fall back to
their defaults. -/
theorem paginate_invalid_input_fallback_witness :
    (paginate ([] : List Nat) (some "abc") (some "0")).page = 1 ∧
    (paginate ([] : List Nat) (some "abc") (some "0")).limit = 10 := by
  have h := paginate_invalid_input_fallback ([] : List Nat) (some "abc") (some "0")
  exact ⟨h.2.2.2.2.1 "abc" rfl (by decide), h.2.2.2.2.2.2.1 "0" rfl (by decide)⟩

/-- C1 counterexample.  The seed document's like counters are not empty:
the seeded article counter for `n1` is 12. -/
theorem seed_likes_nonempty_counterexample :
    getCount (getInitialData "2024-01-01T00:00:00.000Z").likes "articles" "n1" = 12 ∧
    (12 : Nat) ≠ 0 := by
  decide

/-- C1 (amended).  When no persisted document exists, `load()` synthesizes
the fixed seed document — one highlight, two articles, one image, three
sources, two trending topics, and pre-populated sample like counters
(`articles: n1 ↦ 12, n2 ↦ 5`; `images: img1 ↦ 3`) — persists it, and
returns exactly that document; ids are unique within each collection. -/
theorem seed_load (now : String) :
    readDB now none = (getInitialData now, some (getInitialData now)) ∧
    (getInitialData now).highlights.map Highlight.id = ["h1"] ∧
    (getInitialData now).news.map Article.id = ["n1", "n2"] ∧
    (getInitialData now).images.map Image.id = ["img1"] ∧
    (getInitialData now).sources.map Source.id = ["s1", "s2", "s3"] ∧
    (getInitialData now).trending.map Trending.id = ["t1", "t2"] ∧
    (getInitialData now).likes =
      [("articles", [("n1", 12), ("n2", 5)]), ("images", [("img1", 3)])] ∧
    (getInitialData now).feedback = [] ∧
    ((getInitialData now).news.map Article.id).Nodup ∧
    ((getInitialData now).sources.map Source.id).Nodup := by
  refine ⟨rfl, rfl, rfl, rfl, rfl, rfl, rfl, rfl, ?_, ?_⟩
  · exact (by decide : (["n1", "n2"] : List String).Nodup)
  · exact (by decide : (["s1", "s2", "s3"] : List String).Nodup)

/-- C5 counterexample.  A like request whose `type` is present but empty is
rejected with 400 and performs no increment, although both fields are
present. -/
theorem like_empty_type_counterexample :
    likeHandler (some "") (some "n1") "T" (some (getInitialData "T0")) =
      (LikeResult.badRequest "type and id required", some (getInitialData "T0")) ∧
    (some "" : Option String) ≠ none := by
  decide

/-- C5 (amended).  For every store state and valid like request (`type` and
`id` present and non-empty), `POST /like` returns the previous counter
value (0 when absent) plus
one; a second identical request returns the previous value plus two; and a
subsequent `load()` of the persisted state reads back a counter exactly two
higher than before the first request. -/
theorem like_twice_persists (ty idv : Option String) (now1 now2 now3 : String)
    (st : Option Doc) (hty : falsy ty = false) (hid : falsy idv = false) :
    (likeHandler ty idv now1 st).1 =
      LikeResult.ok (idv.getD "") (ty.getD "")
        (getCount (readDB now1 st).1.likes (ty.getD "" ++ "s") (idv.getD "") + 1) ∧
    (likeHandler ty idv now2 (likeHandler ty idv now1 st).2).1 =
      LikeResult.ok (idv.getD "") (ty.getD "")
        (getCount (readDB now1 st).1.likes (ty.getD "" ++ "s") (idv.getD "") + 2) ∧
    getCount
        (readDB now3 (likeHandler ty idv now2 (likeHandler ty idv now1 st).2).2).1.likes
        (ty.getD "" ++ "s") (idv.getD "") =
      getCount (readDB now1 st).1.likes (ty.getD "" ++ "s") (idv.getD "") + 2 := by
  have hok1 := likeHandler_ok ty idv now1 st hty hid
  refine ⟨?_, ?_, ?_⟩
  · rw [hok1]
  · rw [hok1, likeHandler_ok ty idv now2 _ hty hid]
    simp [readDB, getCount_insertA_self]
  · rw [hok1, likeHandler_ok ty idv now2 _ hty hid]
    simp [readDB, getCount_insertA_self]

/-- C5 witness: liking article `n1` twice on a fresh store moves its
persisted counter from the seeded 12 to 14. -/
theorem like_twice_persists_witness :
    (likeHandler (some "article") (some "n1") "T2"
        (likeHandler (some "article") (some "n1") "T1" none).2).1 =
      LikeResult.ok "n1" "article" 14 ∧
    getCount
        (readDB "T3" (likeHandler (some "article") (some "n1") "T2"
          (likeHandler (some "article") (some "n1") "T1" none).2).2).1.likes
        "articles" "n1" = 14 := by
  have h := like_twice_persists (some "article") (some "n1") "T1" "T2" "T3" none rfl rfl
  exact ⟨h.2.1, h.2.2⟩

/-- C10.  `POST /like` rejects with 400 exactly when `type` or `id` is
missing or empty; any other `type` string `t` (for example `"video"`) is
accepted: the handler creates or reuses the counter table at key `t ++ "s"`
in the document's `likes` object, stores the previous count (0 when absent)
plus one at `id`, persists the document, and returns the new count. -/
theorem like_contract (ty idv : Option String) (now : String) (st : Option Doc) :
    ((∀ e, (likeHandler ty idv now st).1 ≠ LikeResult.badRequest e) ↔
      (falsy ty = false ∧ falsy idv = false)) ∧
    (falsy ty = false → falsy idv = false →
      (likeHandler ty idv now st).1 =
        LikeResult.ok (idv.getD "") (ty.getD "")
          (getCount (readDB now st).1.likes (ty.getD "" ++ "s") (idv.getD "") + 1) ∧
      (likeHandler ty idv now st).2.isSome = true ∧
      (lookupA ((likeHandler ty idv now st).2.getD (readDB now st).1).likes
          (ty.getD "" ++ "s")).isSome = true ∧
      getCount ((likeHandler ty idv now st).2.getD (readDB now st).1).likes
          (ty.getD "" ++ "s") (idv.getD "") =
        getCount (readDB now st).1.likes (ty.getD "" ++ "s") (idv.getD "") + 1) := by
  constructor
  · constructor
    · intro hall
      cases hft : falsy ty with
      | false =>
        cases hfi : falsy idv with
        | false => exact ⟨rfl, rfl⟩
        | true =>
          exact absurd (by simp [likeHandler, hft, hfi])
            (hall "type and id required")
      | true =>
        exact absurd (by simp [likeHandler, hft])
          (hall "type and id required")
    · rintro ⟨hft, hfi⟩ e
      rw [likeHandler_ok ty idv now st hft hfi]
      simp
  · intro hft hfi
    have hok := likeHandler_ok ty idv now st hft hfi
    refine ⟨?_, ?_, ?_, ?_⟩ <;> rw [hok] <;>
      simp [lookupA_insertA_self, getCount_insertA_self]

/-- C10 witness: `type = "video"` on a fresh store is accepted, creates the
`videos` table, and returns a count of 1. -/
theorem like_contract_witness :
    (likeHandler (some "video") (some "v1") "T" none).1 =
      LikeResult.ok "v1" "video" 1 ∧
    getCount ((likeHandler (some "video") (some "v1") "T" none).2.getD
        (readDB "T" none).1).likes ("video" ++ "s") "v1" = 1 := by
  have h := (like_contract (some "video") (some "v1") "T" none).2 rfl rfl
  exact ⟨h.1, h.2.2.2⟩

/-- C6.  Each write endpoint validates before touching the store: a falsy
required field (`type`/`id` for `/like`, `message` for `/feedback`,
`title`/`url` for `/admin/news`) yields a 400 error response and leaves the
file state exactly as it was — not even the absent-file seeding performed
by `readDB` happens. -/
theorem validation_400_no_mutation (st : Option Doc) (now freshId : String)
    (ty idv msg ctx title summary url image sourceId : Option String) :
    (falsy ty = true ∨ falsy idv = true →
      likeHandler ty idv now st =
        (LikeResult.badRequest "type and id required", st)) ∧
    (falsy msg = true →
      feedbackHandler msg ctx freshId now st =
        (FeedbackResult.badRequest "message required", st)) ∧
    (falsy title = true ∨ falsy url = true →
      adminNewsHandler title summary url image sourceId freshId now st =
        (AdminNewsResult.badRequest "title and url required", st)) := by
  refine ⟨?_, ?_, ?_⟩
  · rintro (h | h) <;> simp [likeHandler, h]
  · intro h; simp [feedbackHandler, h]
  · rintro (h | h) <;> simp [adminNewsHandler, h]

/-- C6 witness: a like with no `type`, an empty feedback body, and an
admin article with no `url`, all against a seeded store, each return 400
and leave the store untouched. -/
theorem validation_400_no_mutation_witness :
    likeHandler none (some "n1") "T" (some (getInitialData "T0")) =
      (LikeResult.badRequest "type and id required", some (getInitialData "T0")) ∧
    feedbackHandler none none "f1" "T" (some (getInitialData "T0")) =
      (FeedbackResult.badRequest "message required", some (getInitialData "T0")) ∧
    adminNewsHandler (some "X") none none none none "abc" "T"
        (some (getInitialData "T0")) =
      (AdminNewsResult.badRequest "title and url required", some (getInitialData "T0")) := by
  have h := validation_400_no_mutation (some (getInitialData "T0")) "T" "f1"
    none (some "n1") none none (some "X") none none none none
  refine ⟨h.1 (Or.inl rfl), h.2.1 rfl, ?_⟩
  have h2 := validation_400_no_mutation (some (getInitialData "T0")) "T" "abc"
    none (some "n1") none none (some "X") none none none none
  exact h2.2.2 (Or.inr rfl)

/-- C8.  On any document carrying an `articles` counter table (as every
document produced by the seed or by the handlers does), `GET /news/:id`
returns 404 exactly when no stored article has the requested id, and when
one does it returns a stored article with that id merged with its recorded
like count (0 when no counter is recorded). -/
theorem news_by_id_contract (idp now : String) (st : Option Doc)
    (harts : (lookupA (readDB now st).1.likes "articles").isSome = true) :
    ((newsByIdHandler idp now st).1 = ByIdResult.notFound ↔
      ∀ a ∈ (readDB now st).1.news, a.id ≠ idp) ∧
    (∀ a ∈ (readDB now st).1.news, a.id = idp →
      ∃ b, b ∈ (readDB now st).1.news ∧ b.id = idp ∧
        (newsByIdHandler idp now st).1 =
          ByIdResult.ok b (getCount (readDB now st).1.likes "articles" idp)) := by
  obtain ⟨tbl, htbl⟩ := Option.isSome_iff_exists.mp harts
  cases hf : (readDB now st).1.news.find? (fun n => n.id == idp) with
  | none =>
    have hnone : ∀ a ∈ (readDB now st).1.news, a.id ≠ idp := by
      intro a ha
      have := List.find?_eq_none.mp hf a ha
      simpa using this
    constructor
    · constructor
      · intro _; exact hnone
      · intro _; simp [newsByIdHandler, hf]
    · intro a ha hai
      exact absurd hai (hnone a ha)
  | some b =>
    have hpb : b.id = idp := by
      have := List.find?_some hf
      simpa using this
    have hmb : b ∈ (readDB now st).1.news := List.mem_of_find?_eq_some hf
    have hres : (newsByIdHandler idp now st).1 =
        ByIdResult.ok b ((lookupA tbl b.id).getD 0) := by
      simp [newsByIdHandler, hf, htbl]
    constructor
    · constructor
      · intro h
        rw [hres] at h
        exact absurd h (by simp)
      · intro h
        exact absurd hpb (h b hmb)
    · intro a _ _
      refine ⟨b, hmb, hpb, ?_⟩
      rw [hres, hpb]
      simp [getCount, htbl]

/-- C8 witness: on a fresh store, `GET /news/doesnotexist` is a 404, and
`GET /news/n1` returns the seeded article with its 12 recorded likes. -/
theorem news_by_id_contract_witness :
    (newsByIdHandler "doesnotexist" "T" none).1 = ByIdResult.notFound := by
  exact ((news_by_id_contract "doesnotexist" "T" none (by decide)).1).mpr (by decide)

/-- C7 counterexample.  A present-but-empty `q` is falsy, so the substring
filter is skipped entirely: on a store whose only article has neither
`title` nor `summary`, `GET /news?q=` returns that article even though
neither of its fields matches `q` (a missing field is non-matching). -/
theorem news_empty_query_counterexample :
    (newsHandler (some "") none none none "T" (some bareDoc)).1.data = [bareArticle] ∧
    fieldMatches bareArticle.title (lowerStr "") = false ∧
    fieldMatches bareArticle.summary (lowerStr "") = false ∧
    (some "" : Option String) ≠ none := by
  decide

/-- C7 (amended).  `GET /news` applies its filters in order — articles with
`sourceId` exactly equal to `source` when `source` is given and non-empty,
then articles whose `title` or `summary` contains `q` case-insensitively
when `q` is given and non-empty (a missing field is non-matching, not an
error) — and paginates the result, preserving stored order; no match yields
an empty result set and never an error. -/
theorem news_filter_contract (q page limit source : Option String)
    (now : String) (st : Option Doc) :
    (newsHandler q page limit source now st).1 =
      paginate (newsFiltered (readDB now st).1.news q source) page limit ∧
    (∀ x, x ∈ newsFiltered (readDB now st).1.news q source ↔
      x ∈ (readDB now st).1.news ∧
      (falsy source = false → x.sourceId = source) ∧
      (falsy q = false →
        (fieldMatches x.title (lowerStr (q.getD "")) = true ∨
         fieldMatches x.summary (lowerStr (q.getD "")) = true))) ∧
    (newsFiltered (readDB now st).1.news q source).Sublist (readDB now st).1.news ∧
    (∀ f, fieldMatches none f = false) ∧
    (newsFiltered (readDB now st).1.news q source = [] →
      (newsHandler q page limit source now st).1.data = []) := by
  refine ⟨rfl, ?_, ?_, fun f => rfl, ?_⟩
  · intro x
    unfold newsFiltered
    cases hs : falsy source <;> cases hq : falsy q <;>
      (simp [List.mem_filter, and_assoc]; try tauto)
  · unfold newsFiltered
    cases hs : falsy source <;> cases hq : falsy q <;> simp
  · intro h
    simp [newsHandler, h, paginate]

/-- C7 witness: a query matching nothing, combined with an unknown source
id, yields an empty result set rather than an error. -/
theorem news_filter_contract_witness :
    (newsHandler (some "ECONOMIA") none none (some "s9") "T" none).1.data = [] := by
  have h := news_filter_contract (some "ECONOMIA") none none (some "s9") "T" none
  exact h.2.2.2.2 (by decide)

/-- C4 counterexample.  A present-but-empty `q` is falsy, so `/search`
rejects it with 400 instead of returning matches. -/
theorem search_empty_query_counterexample :
    searchHandler (some "") none none "T" (some (getInitialData "T0")) =
      (SearchResult.badRequest "q parameter required", some (getInitialData "T0")) ∧
    (some "" : Option String) ≠ none := by
  decide

/-- C4 (amended).  `GET /search` returns 400 when `q` is missing or empty;
for a present non-empty `q` it paginates the concatenation of exactly the
news items whose `title` or `summary` contains `q` case-insensitively, each
tagged `news`, followed by exactly the image items whose `title` contains
`q` case-insensitively, each tagged `image` — so every news match precedes
every image match before pagination. -/
theorem search_contract (q page limit : Option String) (now : String)
    (st : Option Doc) :
    (falsy q = true →
      searchHandler q page limit now st =
        (SearchResult.badRequest "q parameter required", st)) ∧
    (falsy q = false →
      searchHandler q page limit now st =
        (SearchResult.ok (paginate
          (searchNews (readDB now st).1 (lowerStr (q.getD "")) ++
           searchImages (readDB now st).1 (lowerStr (q.getD ""))) page limit),
         (readDB now st).2) ∧
      (∀ a : Article,
        SearchHit.newsHit a ∈ searchNews (readDB now st).1 (lowerStr (q.getD "")) ↔
        a ∈ (readDB now st).1.news ∧
          (fieldMatches a.title (lowerStr (q.getD "")) = true ∨
           fieldMatches a.summary (lowerStr (q.getD "")) = true)) ∧
      (∀ i : Image,
        SearchHit.imageHit i ∈ searchImages (readDB now st).1 (lowerStr (q.getD "")) ↔
        i ∈ (readDB now st).1.images ∧
          fieldMatches i.title (lowerStr (q.getD "")) = true) ∧
      (∀ h ∈ searchNews (readDB now st).1 (lowerStr (q.getD "")),
        SearchHit.kind h = "news") ∧
      (∀ h ∈ searchImages (readDB now st).1 (lowerStr (q.getD "")),
        SearchHit.kind h = "image")) := by
  constructor
  · intro h
    simp [searchHandler, h]
  · intro h
    refine ⟨by simp [searchHandler, h], ?_, ?_, ?_, ?_⟩
    · intro a
      simp [searchNews, List.mem_filter]
    · intro i
      simp [searchImages, List.mem_filter]
    · intro hit hh
      simp [searchNews, List.mem_map] at hh
      obtain ⟨b, -, rfl⟩ := hh
      rfl
    · intro hit hh
      simp [searchImages, List.mem_map] at hh
      obtain ⟨b, -, rfl⟩ := hh
      rfl

/-- C4 witness: `q = "tech"` on a fresh store returns the paginated
news-then-images concatenation of the matches. -/
theorem search_contract_witness :
    searchHandler (some "tech") none none "T" none =
      (SearchResult.ok (paginate
        (searchNews (getInitialData "T") (lowerStr "tech") ++
         searchImages (getInitialData "T") (lowerStr "tech")) none none),
       some (getInitialData "T")) := by
  have h := (search_contract (some "tech") none none "T" none).2 rfl
  exact h.1

/-- C9 counterexample.  An admin create whose `title` is present but empty
is rejected with 400 and prepends nothing, although both required fields
are present. -/
theorem admin_news_empty_title_counterexample :
    adminNewsHandler (some "") none (some "http://y") none none "abc" "T"
        (some (getInitialData "T0")) =
      (AdminNewsResult.badRequest "title and url required", some (getInitialData "T0")) ∧
    (some "" : Option String) ≠ none := by
  decide

/-- C9 (amended).  With `title` and `url` present and non-empty and a
generated id (`'n' + nanoid`)
that differs from every stored article id — the freshness `nanoid` is
relied upon for — `POST /admin/news` prepends the new article to `db.news`
and persists the result; the article carries id `n<fresh>`, the current
timestamp as `publishedAt`, the given `title` and `url`, defaults for
omitted optional fields (`''` for summary and image, `null` for sourceId),
and appears first in a subsequent unfiltered `GET /news`. -/
theorem admin_news_prepends (title summary url image sourceId : Option String)
    (freshId now now2 : String) (st : Option Doc)
    (ht : falsy title = false) (hu : falsy url = false)
    (hfresh : ∀ a ∈ (readDB now st).1.news, a.id ≠ "n" ++ freshId) :
    adminNewsHandler title summary url image sourceId freshId now st =
      (AdminNewsResult.created (newArticle title summary url image sourceId freshId now),
       some { (readDB now st).1 with
         news := newArticle title summary url image sourceId freshId now ::
           (readDB now st).1.news }) ∧
    (newArticle title summary url image sourceId freshId now).id = "n" ++ freshId ∧
    (∀ a ∈ (readDB now st).1.news,
      a.id ≠ (newArticle title summary url image sourceId freshId now).id) ∧
    (newArticle title summary url image sourceId freshId now).publishedAt = some now ∧
    (newArticle title summary url image sourceId freshId now).title = title ∧
    (newArticle title summary url image sourceId freshId now).url = url ∧
    (falsy summary = true →
      (newArticle title summary url image sourceId freshId now).summary = some "") ∧
    (falsy image = true →
      (newArticle title summary url image sourceId freshId now).image = some "") ∧
    (falsy sourceId = true →
      (newArticle title summary url image sourceId freshId now).sourceId = none) ∧
    (newsHandler none none none none now2
        (adminNewsHandler title summary url image sourceId freshId now st).2).1.data.head? =
      some (newArticle title summary url image sourceId freshId now) := by
  have hmain : adminNewsHandler title summary url image sourceId freshId now st =
      (AdminNewsResult.created (newArticle title summary url image sourceId freshId now),
       some { (readDB now st).1 with
         news := newArticle title summary url image sourceId freshId now ::
           (readDB now st).1.news }) := by
    simp [adminNewsHandler, ht, hu, writeDB]
  refine ⟨hmain, rfl, ?_, rfl, rfl, rfl, ?_, ?_, ?_, ?_⟩
  · intro a ha
    exact hfresh a ha
  · intro h; simp [newArticle, h]
  · intro h; simp [newArticle, h]
  · intro h; simp [newArticle, h]
  · rw [hmain]
    simp [newsHandler, newsFiltered, falsy, readDB, paginate, jsParseIntOr]

/-- C9 witness: creating an article on a fresh store makes it the head of
the next unfiltered `GET /news` page. -/
theorem admin_news_prepends_witness :
    (newsHandler none none none none "T2"
        (adminNewsHandler (some "X") none (some "http://y") none none
          "abc123" "T" none).2).1.data.head? =
      some (newArticle (some "X") none (some "http://y") none none "abc123" "T") := by
  have h := admin_news_prepends (some "X") none (some "http://y") none none
    "abc123" "T" "T2" none rfl rfl (by decide)
  exact h.2.2.2.2.2.2.2.2.2

end Explorer
